import Mathlib

/-!
Shallow embedding of `src/OOP/multi-inheritance/clock.py` (class `Clock`),
together with proofs of the specified properties.

Modelling conventions:
* Python `int` arguments become `Int`; a small universe `PyVal` of Python
  values models the dynamic `isinstance` checks (`bool` is a subclass of
  `int` in Python, so `isinstance(True, int)` is true).
* An operation that can `raise` is embedded as `Except ClockError _`; an
  error result leaves the caller's clock unchanged (in the source all
  `raise` statements precede every field assignment).
* Python `%` on `int` is floored modulo and `//` is floored division; for
  the positive divisors used by the source (86400, 3600, 60) these agree
  with Lean's Euclidean `Int.emod` / `Int.ediv`, written `%` and `/` below.
* Python stores the argument objects themselves in `self.hours` etc.  The
  numeric model `Clock` abstracts a stored `int` or `bool` to its numeric
  value; every operation except `__repr__` observes only that value.
  `__repr__` renders the stored objects (`repr(True)` is `True`, not `1`),
  so the string-representation development additionally uses the
  object-level model `ClockObj`, whose fields keep the stored `int`/`bool`
  objects and which maps onto `Clock` by `ClockObj.toClock`.
-/

/-- The three fields of a `Clock` instance. -/
structure Clock where
  hours : Int
  minutes : Int
  seconds : Int
deriving DecidableEq

/-- A universe of Python values, enough to express the dynamic type checks
of the source: genuine `int`s, `bool`s (a subclass of `int`), and some
representatives of non-integral types (`float`, `str`, `None`), plus
`Clock` instances themselves (needed for `__eq__`'s `isinstance` test). -/
inductive PyVal where
  | int : Int → PyVal
  | bool : Bool → PyVal
  | float : Int → PyVal
  | str : String → PyVal
  | none : PyVal
  | clock : Clock → PyVal
deriving DecidableEq

/-- `isinstance(x, int)` in Python: true exactly for `int` and its subclass
`bool`. -/
def PyVal.isInt : PyVal → Bool
  | .int _ => true
  | .bool _ => true
  | _ => false

/-- `isinstance(x, Clock)`. -/
def PyVal.isClock : PyVal → Bool
  | .clock _ => true
  | _ => false

/-- The numeric value of a Python `int` (with `True = 1`, `False = 0`).
Only ever used behind a successful `isInt` check, mirroring the source. -/
def PyVal.asInt : PyVal → Int
  | .int n => n
  | .bool b => if b then 1 else 0
  | _ => 0

/-- The two exception kinds the source raises: `TypeError` and
`ValueError`, each with its message string. -/
inductive ClockError where
  | typeError : String → ClockError
  | valueError : String → ClockError
deriving DecidableEq

/-- `Clock.set_clock(self, hours, minutes, seconds)` (lines 29-61):
type-check all three arguments, then range-check hours, minutes, seconds in
that order, then assign all three fields and return self. -/
def Clock.set_clock (_self : Clock) (hours minutes seconds : PyVal) :
    Except ClockError Clock :=
  if !(hours.isInt && minutes.isInt && seconds.isInt) then
    .error (.typeError ("All time components must be integers"))
  else
    let h := hours.asInt
    let m := minutes.asInt
    let s := seconds.asInt
    if ¬ (0 ≤ h ∧ h < 24) then
      .error (.valueError ("Hours must be between 0 and 23"))
    else if ¬ (0 ≤ m ∧ m < 60) then
      .error (.valueError ("Minutes must be between 0 and 59"))
    else if ¬ (0 ≤ s ∧ s < 60) then
      .error (.valueError ("Seconds must be between 0 and 59"))
    else
      .ok ⟨h, m, s⟩

/-- Running `set_clock` as the mutation it is in Python: on success the
fields are overwritten, on an exception the instance keeps its prior state
(in the source every `raise` precedes the first field assignment). -/
def Clock.runSet (self : Clock) (hours minutes seconds : PyVal) : Clock :=
  match self.set_clock hours minutes seconds with
  | .ok c => c
  | .error _ => self

/-- `Clock.__init__(self, hours=0, minutes=0, seconds=0)` (lines 14-27)
with the three arguments supplied explicitly: it forwards to `set_clock`
(which reads no prior field, so the fresh instance needs no prior state). -/
def Clock.init (hours minutes seconds : PyVal) : Except ClockError Clock :=
  Clock.set_clock ⟨0, 0, 0⟩ hours minutes seconds

/-- A call site of `Clock(...)`: `none` is an omitted argument, for which
Python supplies the default `0` declared in `__init__`'s signature. -/
def Clock.initOpt (hours minutes seconds : Option PyVal) :
    Except ClockError Clock :=
  Clock.init (hours.getD (.int 0)) (minutes.getD (.int 0))
    (seconds.getD (.int 0))

/-- The `while total_seconds < 0: total_seconds += 24 * 3600` loop shared
by `add_seconds` (lines 107-108) and `from_seconds` (lines 174-175). -/
def addDaysWhileNeg (t : Int) : Int :=
  if h : t < 0 then addDaysWhileNeg (t + 24 * 3600) else t
termination_by (-t).toNat
decreasing_by simp_wf; omega

/-- `Clock.to_seconds(self)` (lines 147-154). -/
def Clock.to_seconds (self : Clock) : Int :=
  self.hours * 3600 + self.minutes * 60 + self.seconds

/-- `Clock.add_seconds(self, seconds_to_add)` (lines 81-119). -/
def Clock.add_seconds (self : Clock) (seconds_to_add : PyVal) :
    Except ClockError Clock :=
  if !seconds_to_add.isInt then
    .error (.typeError ("Seconds to add must be an integer"))
  else
    let total_seconds := self.hours * 3600 + self.minutes * 60 + self.seconds
    let total_seconds := total_seconds + seconds_to_add.asInt
    let total_seconds := addDaysWhileNeg total_seconds
    let total_seconds := total_seconds % (24 * 3600)
    let hours := total_seconds / 3600
    let remaining := total_seconds % 3600
    let minutes := remaining / 60
    let seconds := remaining % 60
    self.set_clock (.int hours) (.int minutes) (.int seconds)

/-- `Clock.from_seconds(cls, total_seconds)` (lines 156-184). -/
def Clock.from_seconds (total_seconds : PyVal) : Except ClockError Clock :=
  if !total_seconds.isInt then
    .error (.typeError ("Total seconds must be an integer"))
  else
    let t := addDaysWhileNeg total_seconds.asInt
    let t := t % (24 * 3600)
    let hours := t / 3600
    let remaining := t % 3600
    let minutes := remaining / 60
    let seconds := remaining % 60
    Clock.init (.int hours) (.int minutes) (.int seconds)

/-- The result of Python's `__eq__` protocol: a boolean, or the
`NotImplemented` sentinel that tells the interpreter to fall back. -/
inductive EqResult where
  | bool : Bool → EqResult
  | notImplemented : EqResult
deriving DecidableEq

/-- `Clock.__eq__(self, other)` (lines 121-136): `NotImplemented` when
`other` is not a `Clock`, otherwise component-wise comparison. -/
def Clock.eqPy (self : Clock) (other : PyVal) : EqResult :=
  match other with
  | .clock o =>
      .bool (self.hours == o.hours && self.minutes == o.minutes &&
        self.seconds == o.seconds)
  | _ => .notImplemented

/-- `Clock.__hash__(self)` (lines 138-145) returns
`hash((self.hours, self.minutes, self.seconds))`. Python's built-in tuple
hash is a fixed pure function of the tuple's components; its concrete
integer value is interpreter-specific and no property of the spec depends
on it, only on the hash being a function of the field triple. The embedding
therefore returns the key the tuple hash is applied to. -/
def Clock.hashKey (self : Clock) : Int × Int × Int :=
  (self.hours, self.minutes, self.seconds)

/-- Python's `f"{n:02d}"`: decimal rendering left-padded with `0` to width
two (a sign counts toward the width, so only one-character renderings, i.e.
single-digit non-negative numbers, get a leading zero). -/
def format02 (n : Int) : String :=
  let s := toString n
  if s.length < 2 then "0" ++ s else s

/-- `Clock.__str__(self)` (lines 63-70):
`f"{self.hours:02d}:{self.minutes:02d}:{self.seconds:02d}"`. -/
def Clock.strPy (self : Clock) : String :=
  format02 self.hours ++ ":" ++ format02 self.minutes ++ ":" ++
    format02 self.seconds

/-- The class invariant stated by the spec: the triple denotes a valid
time-of-day. -/
def Clock.Valid (c : Clock) : Prop :=
  0 ≤ c.hours ∧ c.hours ≤ 23 ∧ 0 ≤ c.minutes ∧ c.minutes ≤ 59 ∧
    0 ≤ c.seconds ∧ c.seconds ≤ 59

instance (c : Clock) : Decidable c.Valid := by
  unfold Clock.Valid; infer_instance

/-- Abbreviation for the decomposition `t // 3600`, `(t % 3600) // 60`,
`(t % 3600) % 60` that `add_seconds` and `from_seconds` both perform. -/
def decomp (t : Int) : Clock :=
  ⟨t / 3600, t % 3600 / 60, t % 3600 % 60⟩

/-- Spec-side definition, following the spec's words: floored modulo is the
remainder of floor division (`Int.fdiv`), the result taking the divisor's
sign. -/
def specFloorMod (a b : Int) : Int :=
  a - b * Int.fdiv a b

/-- Spec-side definition of the display format, following the spec's
words: each component rendered as exactly two decimal digits, joined by
`:`. -/
def specTwoDigits (n : Int) : String :=
  String.mk [Char.ofNat (48 + ((n / 10) % 10).toNat),
    Char.ofNat (48 + (n % 10).toNat)]

/-- Spec-side `HH:MM:SS` rendering. -/
def specHHMMSS (c : Clock) : String :=
  specTwoDigits c.hours ++ ":" ++ specTwoDigits c.minutes ++ ":" ++
    specTwoDigits c.seconds

/-- A stored field object: after a successful `set_clock`, a field of a
Python `Clock` instance holds the original argument object, which the
`isinstance` check constrains to be an `int` or a `bool`. -/
inductive IntObj where
  | int : Int → IntObj
  | bool : Bool → IntObj
deriving DecidableEq

/-- The numeric value of a stored object (`True = 1`, `False = 0`). -/
def IntObj.val : IntObj → Int
  | .int n => n
  | .bool b => if b then 1 else 0

/-- Python's rendering of a stored object inside an f-string `{x}` slot:
decimal for an `int`, `True`/`False` for a `bool`. -/
def IntObj.render : IntObj → String
  | .int n => toString n
  | .bool b => if b then "True" else "False"

/-- The stored object back as a Python value (for re-parsing `__repr__`
output as a constructor call). -/
def IntObj.toPy : IntObj → PyVal
  | .int n => .int n
  | .bool b => .bool b

/-- Whether the stored object is a genuine `int` (not a `bool`). -/
def IntObj.isGenuineInt : IntObj → Bool
  | .int _ => true
  | .bool _ => false

/-- The stored object a Python value is, when it passes `isinstance(x,
int)`: `toIntObj v = some o` exactly when `v.isInt`, and then `o` is the
object `set_clock` stores. -/
def PyVal.toIntObj : PyVal → Option IntObj
  | .int n => some (.int n)
  | .bool b => some (.bool b)
  | _ => Option.none

/-- A `Clock` instance at the object level: the fields hold the stored
argument objects themselves, as Python's `self.hours = hours` does. -/
structure ClockObj where
  hours : IntObj
  minutes : IntObj
  seconds : IntObj
deriving DecidableEq

/-- `Clock.set_clock` (lines 29-61) at the object level: the `match`
fall-through arm is exactly the source's leading
`not all(isinstance(x, int) for x in (hours, minutes, seconds))` check;
then the three range checks run on the numeric values in order, and on
success the three argument objects themselves are stored. -/
def ClockObj.set_clock (_self : ClockObj) (hours minutes seconds : PyVal) :
    Except ClockError ClockObj :=
  match hours.toIntObj, minutes.toIntObj, seconds.toIntObj with
  | some h, some m, some s =>
      if ¬ (0 ≤ h.val ∧ h.val < 24) then
        .error (.valueError ("Hours must be between 0 and 23"))
      else if ¬ (0 ≤ m.val ∧ m.val < 60) then
        .error (.valueError ("Minutes must be between 0 and 59"))
      else if ¬ (0 ≤ s.val ∧ s.val < 60) then
        .error (.valueError ("Seconds must be between 0 and 59"))
      else
        .ok ⟨h, m, s⟩
  | _, _, _ =>
      .error (.typeError ("All time components must be integers"))

/-- `Clock.__init__` (lines 14-27) at the object level. -/
def ClockObj.init (hours minutes seconds : PyVal) :
    Except ClockError ClockObj :=
  ClockObj.set_clock ⟨.int 0, .int 0, .int 0⟩ hours minutes seconds

/-- The numeric image of an object-level instance: the abstraction under
which the numeric model `Clock` represents it. -/
def ClockObj.toClock (o : ClockObj) : Clock :=
  ⟨o.hours.val, o.minutes.val, o.seconds.val⟩

/-- Validity of an object-level instance: its numeric image is a valid
time-of-day. -/
def ClockObj.Valid (o : ClockObj) : Prop :=
  o.toClock.Valid

instance (o : ClockObj) : Decidable o.Valid := by
  unfold ClockObj.Valid; infer_instance

/-- Whether all three stored fields are genuine `int` objects (true for
every instance built from `int` arguments, and for everything
`add_seconds`/`from_seconds` store, since they pass `int`s to
`set_clock`). -/
def ClockObj.intFields (o : ClockObj) : Bool :=
  o.hours.isGenuineInt && o.minutes.isGenuineInt && o.seconds.isGenuineInt

/-- `Clock.__str__(self)` (lines 63-70) at the object level: the `:02d`
format slot observes the numeric value of the stored object
(`f"{True:02d}"` is `"01"`). -/
def ClockObj.strPy (self : ClockObj) : String :=
  format02 self.hours.val ++ ":" ++ format02 self.minutes.val ++ ":" ++
    format02 self.seconds.val

/-- `Clock.__repr__(self)` (lines 72-79):
`f"Clock({self.hours}, {self.minutes}, {self.seconds})"` renders the three
stored objects. -/
def ClockObj.reprPy (self : ClockObj) : String :=
  "Clock(" ++ self.hours.render ++ ", " ++ self.minutes.render ++
    ", " ++ self.seconds.render ++ ")"

theorem set_clock_ok_of (c : Clock) (h m s : PyVal) (hI : h.isInt = true)
    (mI : m.isInt = true) (sI : s.isInt = true) (hh : 0 ≤ h.asInt ∧ h.asInt < 24)
    (hm : 0 ≤ m.asInt ∧ m.asInt < 60) (hs : 0 ≤ s.asInt ∧ s.asInt < 60) :
    c.set_clock h m s = .ok ⟨h.asInt, m.asInt, s.asInt⟩ := by
  unfold Clock.set_clock
  rw [hI, mI, sI]
  simp only [Bool.and_self, Bool.not_true, Bool.false_eq_true, if_false]
  rw [if_neg (by omega), if_neg (by omega), if_neg (by omega)]

theorem set_clock_int_ok (c : Clock) (h m s : Int) (hh : 0 ≤ h ∧ h < 24)
    (hm : 0 ≤ m ∧ m < 60) (hs : 0 ≤ s ∧ s < 60) :
    c.set_clock (.int h) (.int m) (.int s) = .ok ⟨h, m, s⟩ :=
  set_clock_ok_of c (.int h) (.int m) (.int s) rfl rfl rfl hh hm hs

theorem set_clock_ok_inv (c : Clock) (h m s : PyVal) (c' : Clock)
    (heq : c.set_clock h m s = .ok c') :
    h.isInt = true ∧ m.isInt = true ∧ s.isInt = true ∧
      c' = ⟨h.asInt, m.asInt, s.asInt⟩ ∧ c'.Valid := by
  unfold Clock.set_clock at heq
  split at heq
  · cases heq
  · rename_i hB
    simp only [Bool.not_eq_true', Bool.not_eq_false, Bool.and_eq_true] at hB
    obtain ⟨⟨hI, mI⟩, sI⟩ := hB
    dsimp only at heq
    split at heq
    · cases heq
    · split at heq
      · cases heq
      · split at heq
        · cases heq
        · rename_i h1 h2 h3
          cases heq
          refine ⟨hI, mI, sI, rfl, ?_⟩
          unfold Clock.Valid
          dsimp only
          omega

theorem to_seconds_decomp (t : Int) : (decomp t).to_seconds = t := by
  unfold decomp Clock.to_seconds
  dsimp only
  omega

theorem decomp_valid (t : Int) (h0 : 0 ≤ t) (h1 : t < 86400) :
    (decomp t).Valid := by
  unfold decomp Clock.Valid
  dsimp only
  refine ⟨by omega, by omega, by omega, by omega, by omega, by omega⟩

theorem addDaysWhileNeg_nonneg_emod (t : Int) :
    0 ≤ addDaysWhileNeg t ∧ addDaysWhileNeg t % 86400 = t % 86400 := by
  induction t using addDaysWhileNeg.induct with
  | case1 t h ih =>
      rw [addDaysWhileNeg, dif_pos h]
      omega
  | case2 t h =>
      rw [addDaysWhileNeg, dif_neg h]
      omega

theorem add_seconds_of_isInt (c : Clock) (v : PyVal) (hv : v.isInt = true) :
    c.add_seconds v = .ok (decomp ((c.to_seconds + v.asInt) % 86400)) := by
  unfold Clock.add_seconds
  rw [hv]
  simp only [Bool.not_true, Bool.false_eq_true, if_false]
  have h1 := addDaysWhileNeg_nonneg_emod
    (c.hours * 3600 + c.minutes * 60 + c.seconds + v.asInt)
  set a := addDaysWhileNeg (c.hours * 3600 + c.minutes * 60 + c.seconds +
    v.asInt) with ha
  rw [set_clock_int_ok c _ _ _ (by omega) (by omega) (by omega)]
  unfold decomp Clock.to_seconds
  have : a % (24 * 3600) = (c.hours * 3600 + c.minutes * 60 + c.seconds +
      v.asInt) % 86400 := by omega
  rw [this]

theorem add_seconds_not_int (c : Clock) (v : PyVal) (hv : v.isInt = false) :
    c.add_seconds v =
      .error (.typeError ("Seconds to add must be an integer")) := by
  unfold Clock.add_seconds
  rw [hv]
  rfl

theorem from_seconds_not_int (v : PyVal) (hv : v.isInt = false) :
    Clock.from_seconds v =
      .error (.typeError ("Total seconds must be an integer")) := by
  unfold Clock.from_seconds
  rw [hv]
  rfl

theorem from_seconds_of_isInt (v : PyVal) (hv : v.isInt = true) :
    Clock.from_seconds v = .ok (decomp (v.asInt % 86400)) := by
  unfold Clock.from_seconds
  rw [hv]
  simp only [Bool.not_true, Bool.false_eq_true, if_false]
  have h1 := addDaysWhileNeg_nonneg_emod v.asInt
  set a := addDaysWhileNeg v.asInt with ha
  unfold Clock.init
  rw [set_clock_int_ok _ _ _ _ (by omega) (by omega) (by omega)]
  unfold decomp
  have : a % (24 * 3600) = v.asInt % 86400 := by omega
  rw [this]

theorem specFloorMod_day (a : Int) : specFloorMod a 86400 = a % 86400 := by
  unfold specFloorMod
  rw [Int.fdiv_eq_ediv a (by norm_num), Int.emod_def]

/-- C1: every `Clock` reachable through the public operations satisfies
`0 ≤ hours ≤ 23`, `0 ≤ minutes ≤ 59`, `0 ≤ seconds ≤ 59` whenever an
operation returns successfully: `set_clock`, construction, `add_seconds`
and `from_seconds` each re-establish the invariant before returning. -/
theorem clock_invariant_preserved :
    (∀ (c : Clock) (h m s : PyVal) (c' : Clock),
        c.set_clock h m s = .ok c' → c'.Valid)
  ∧ (∀ (h m s : PyVal) (c' : Clock), Clock.init h m s = .ok c' → c'.Valid)
  ∧ (∀ (c : Clock) (d : PyVal) (c' : Clock),
        c.Valid → c.add_seconds d = .ok c' → c'.Valid)
  ∧ (∀ (v : PyVal) (c' : Clock),
        Clock.from_seconds v = .ok c' → c'.Valid) := by
  have hset : ∀ (c : Clock) (h m s : PyVal) (c' : Clock),
      c.set_clock h m s = .ok c' → c'.Valid := fun c h m s c' heq =>
    (set_clock_ok_inv c h m s c' heq).2.2.2.2
  refine ⟨hset, fun h m s c' heq => hset _ h m s c' heq, ?_, ?_⟩
  · intro c d c' _ heq
    cases hd : d.isInt
    · rw [add_seconds_not_int c d hd] at heq
      cases heq
    · rw [add_seconds_of_isInt c d hd] at heq
      cases heq
      exact decomp_valid _ (by omega) (by omega)
  · intro v c' heq
    cases hv : v.isInt
    · rw [from_seconds_not_int v hv] at heq
      cases heq
    · rw [from_seconds_of_isInt v hv] at heq
      cases heq
      exact decomp_valid _ (by omega) (by omega)

/-- Witness for C1: `set_clock(12, 30, 45)` yields a valid clock, and so
does `Clock(12, 30, 45).add_seconds(3665)` (which shows `13:31:50`). -/
theorem clock_invariant_preserved_witness :
    Clock.Valid ⟨12, 30, 45⟩ ∧ Clock.Valid ⟨13, 31, 50⟩ :=
  ⟨clock_invariant_preserved.1 ⟨0, 0, 0⟩ (.int 12) (.int 30) (.int 45)
      ⟨12, 30, 45⟩ (by rw [set_clock_int_ok] <;> omega),
    clock_invariant_preserved.2.2.1 ⟨12, 30, 45⟩ (.int 3665) ⟨13, 31, 50⟩
      (by decide)
      (by rw [add_seconds_of_isInt ⟨12, 30, 45⟩ (.int 3665) rfl]; rfl)⟩

/-- C2: `add_seconds` is additive modulo 86400:
`from_seconds(x).add_seconds(d) == from_seconds(x + d)` for all integers
`x`, `d`, including negative `d` and magnitudes beyond one day. -/
theorem add_seconds_additive (x d : Int) :
    (Clock.from_seconds (.int x)).bind (fun c => c.add_seconds (.int d)) =
      Clock.from_seconds (.int (x + d)) := by
  rw [from_seconds_of_isInt (.int x) rfl,
    from_seconds_of_isInt (.int (x + d)) rfl]
  show (decomp ((PyVal.int x).asInt % 86400)).add_seconds (.int d) = _
  rw [add_seconds_of_isInt (decomp ((PyVal.int x).asInt % 86400)) (.int d) rfl,
    to_seconds_decomp]
  simp only [PyVal.asInt]
  congr 2
  omega

/-- C3: the loop-plus-remainder normalization in `add_seconds` computes the
true mathematical floor-mod: after a successful `add_seconds(d)`,
`to_seconds()` equals `(old to_seconds() + d)` floor-mod 86400; in
particular `Clock(0,0,0).add_seconds(-1)` yields `23:59:59`. -/
theorem add_seconds_is_floor_mod :
    (∀ (c : Clock) (d : Int) (c' : Clock), c.Valid →
        c.add_seconds (.int d) = .ok c' →
        c'.to_seconds = specFloorMod (c.to_seconds + d) 86400)
  ∧ Clock.add_seconds ⟨0, 0, 0⟩ (.int (-1)) = .ok ⟨23, 59, 59⟩ := by
  constructor
  · intro c d c' _ heq
    rw [add_seconds_of_isInt c (.int d) rfl] at heq
    cases heq
    rw [to_seconds_decomp, specFloorMod_day]
    rfl
  · rw [add_seconds_of_isInt ⟨0, 0, 0⟩ (.int (-1)) rfl]
    rfl

/-- Witness for C3: applied at `Clock(0,0,0)` and `d = -1`, using the
theorem's own second conjunct as the evaluated hypothesis. -/
theorem add_seconds_is_floor_mod_witness :
    Clock.to_seconds ⟨23, 59, 59⟩ =
      specFloorMod (Clock.to_seconds ⟨0, 0, 0⟩ + -1) 86400 :=
  add_seconds_is_floor_mod.1 ⟨0, 0, 0⟩ (-1) ⟨23, 59, 59⟩ (by decide)
    add_seconds_is_floor_mod.2

/-- C4: failure contract of `set_clock`/construction: the integral type
check comes first and raises `TypeError`; with integer arguments the range
checks run in the order hours, minutes, seconds and raise `ValueError` for
the first violated component; and every failure leaves the instance's three
fields exactly as they were (validation precedes every assignment). -/
theorem set_clock_failure_contract :
    (∀ (c : Clock) (h m s : PyVal),
        ¬ (h.isInt = true ∧ m.isInt = true ∧ s.isInt = true) →
        c.set_clock h m s =
          .error (.typeError ("All time components must be integers")))
  ∧ (∀ (c : Clock) (h m s : PyVal), h.isInt = true → m.isInt = true →
        s.isInt = true → ¬ (0 ≤ h.asInt ∧ h.asInt < 24) →
        c.set_clock h m s =
          .error (.valueError ("Hours must be between 0 and 23")))
  ∧ (∀ (c : Clock) (h m s : PyVal), h.isInt = true → m.isInt = true →
        s.isInt = true → (0 ≤ h.asInt ∧ h.asInt < 24) →
        ¬ (0 ≤ m.asInt ∧ m.asInt < 60) →
        c.set_clock h m s =
          .error (.valueError ("Minutes must be between 0 and 59")))
  ∧ (∀ (c : Clock) (h m s : PyVal), h.isInt = true → m.isInt = true →
        s.isInt = true → (0 ≤ h.asInt ∧ h.asInt < 24) →
        (0 ≤ m.asInt ∧ m.asInt < 60) → ¬ (0 ≤ s.asInt ∧ s.asInt < 60) →
        c.set_clock h m s =
          .error (.valueError ("Seconds must be between 0 and 59")))
  ∧ (∀ (c : Clock) (h m s : PyVal) (e : ClockError),
        c.set_clock h m s = .error e → c.runSet h m s = c) := by
  refine ⟨?_, ?_, ?_, ?_, ?_⟩
  · intro c h m s hni
    have hfalse : (h.isInt && m.isInt && s.isInt) = false := by
      cases hh : h.isInt <;> cases hm : m.isInt <;> cases hs : s.isInt <;>
        simp_all
    unfold Clock.set_clock
    rw [hfalse]
    rfl
  · intro c h m s hI mI sI hout
    unfold Clock.set_clock
    rw [hI, mI, sI]
    simp only [Bool.and_self, Bool.not_true, Bool.false_eq_true, if_false]
    rw [if_pos hout]
  · intro c h m s hI mI sI hin mout
    unfold Clock.set_clock
    rw [hI, mI, sI]
    simp only [Bool.and_self, Bool.not_true, Bool.false_eq_true, if_false]
    rw [if_neg (by omega), if_pos mout]
  · intro c h m s hI mI sI hin min sout
    unfold Clock.set_clock
    rw [hI, mI, sI]
    simp only [Bool.and_self, Bool.not_true, Bool.false_eq_true, if_false]
    rw [if_neg (by omega), if_neg (by omega), if_pos sout]
  · intro c h m s e heq
    unfold Clock.runSet
    rw [heq]

/-- Witness for C4: a string argument trips the type check first even with
an out-of-range hour alongside; 24 hours, 60 minutes and -1 seconds each
report their own range error in order; a failing call leaves `⟨1, 2, 3⟩`
untouched. -/
theorem set_clock_failure_contract_witness :
    Clock.set_clock ⟨1, 2, 3⟩ (.int 99) (.str ("x")) (.int 0) =
      .error (.typeError ("All time components must be integers"))
  ∧ Clock.set_clock ⟨1, 2, 3⟩ (.int 24) (.int 0) (.int 0) =
      .error (.valueError ("Hours must be between 0 and 23"))
  ∧ Clock.set_clock ⟨1, 2, 3⟩ (.int 0) (.int 60) (.int 99) =
      .error (.valueError ("Minutes must be between 0 and 59"))
  ∧ Clock.set_clock ⟨1, 2, 3⟩ (.int 0) (.int 0) (.int (-1)) =
      .error (.valueError ("Seconds must be between 0 and 59"))
  ∧ Clock.runSet ⟨1, 2, 3⟩ (.int 24) (.int 0) (.int 0) = ⟨1, 2, 3⟩ :=
  ⟨set_clock_failure_contract.1 ⟨1, 2, 3⟩ (.int 99) (.str ("x")) (.int 0)
      (by decide),
   set_clock_failure_contract.2.1 ⟨1, 2, 3⟩ (.int 24) (.int 0) (.int 0)
      rfl rfl rfl (by decide),
   set_clock_failure_contract.2.2.1 ⟨1, 2, 3⟩ (.int 0) (.int 60) (.int 99)
      rfl rfl rfl (by decide) (by decide),
   set_clock_failure_contract.2.2.2.1 ⟨1, 2, 3⟩ (.int 0) (.int 0)
      (.int (-1)) rfl rfl rfl (by decide) (by decide) (by decide),
   set_clock_failure_contract.2.2.2.2 ⟨1, 2, 3⟩ (.int 24) (.int 0) (.int 0)
      (.valueError ("Hours must be between 0 and 23")) (by rfl)⟩

/-- C5: round-trips: constructing from valid `h`, `m`, `s` reads back the
same triple, and `from_seconds (to_seconds c)` returns `c` for every valid
clock. -/
theorem clock_round_trips :
    (∀ h m s : Int, 0 ≤ h → h ≤ 23 → 0 ≤ m → m ≤ 59 → 0 ≤ s → s ≤ 59 →
        Clock.init (.int h) (.int m) (.int s) = .ok ⟨h, m, s⟩)
  ∧ (∀ c : Clock, c.Valid →
        Clock.from_seconds (.int c.to_seconds) = .ok c) := by
  constructor
  · intro h m s h0 h1 m0 m1 s0 s1
    unfold Clock.init
    exact set_clock_int_ok _ h m s ⟨h0, by omega⟩ ⟨m0, by omega⟩
      ⟨s0, by omega⟩
  · intro c hc
    rw [from_seconds_of_isInt (.int c.to_seconds) rfl]
    obtain ⟨h, m, s⟩ := c
    unfold Clock.Valid at hc
    dsimp only at hc
    simp only [PyVal.asInt]
    unfold Clock.to_seconds decomp
    dsimp only
    have e1 : (h * 3600 + m * 60 + s) % 86400 = h * 3600 + m * 60 + s := by
      omega
    rw [e1]
    simp only [Except.ok.injEq, Clock.mk.injEq]
    refine ⟨by omega, by omega, by omega⟩

/-- Witness for C5 at `(12, 30, 45)` and at the last second of the day. -/
theorem clock_round_trips_witness :
    Clock.init (.int 12) (.int 30) (.int 45) = .ok ⟨12, 30, 45⟩
  ∧ Clock.from_seconds (.int (Clock.to_seconds ⟨23, 59, 59⟩)) =
      .ok ⟨23, 59, 59⟩ :=
  ⟨clock_round_trips.1 12 30 45 (by decide) (by decide) (by decide)
      (by decide) (by decide) (by decide),
   clock_round_trips.2 ⟨23, 59, 59⟩ (by decide)⟩

theorem format02_eq_specTwoDigits (n : Int) (h0 : 0 ≤ n) (h1 : n < 60) :
    format02 n = specTwoDigits n := by
  interval_cases n <;> decide

theorem toIntObj_toPy (x : IntObj) : x.toPy.toIntObj = some x := by
  cases x <;> rfl

/-- Counterexample to C6 as stated: `Clock(True, False, False)` is a
reachable, valid instance (booleans pass the `isinstance` check), but its
debug representation renders the stored objects — it is
`Clock(True, False, False)`, not the raw decimal integer rendering of its
numeric fields. -/
theorem repr_not_decimal_on_bool_fields :
    ClockObj.init (.bool true) (.bool false) (.bool false) =
      .ok ⟨.bool true, .bool false, .bool false⟩
  ∧ ClockObj.Valid ⟨.bool true, .bool false, .bool false⟩
  ∧ ClockObj.reprPy ⟨.bool true, .bool false, .bool false⟩ =
      "Clock(True, False, False)"
  ∧ ClockObj.reprPy ⟨.bool true, .bool false, .bool false⟩ ≠
      "Clock(" ++ toString (1 : Int) ++ ", " ++ toString (0 : Int) ++
        ", " ++ toString (0 : Int) ++ ")" :=
  ⟨rfl, by decide, rfl, by decide⟩

/-- C6 amended: for every valid object-level clock, the display string is
the zero-padded `HH:MM:SS` form of its numeric fields; the debug
representation is `Clock(x, y, z)` rendering the three stored field
objects — which is the raw unpadded decimal integer form exactly when the
stored fields are genuine `int`s (the case for every instance built from
`int` arguments and for everything `add_seconds`/`from_seconds` store) —
and re-parsing the debug representation as a constructor call on the
stored objects reconstructs an equal clock. -/
theorem string_representations_amended : ∀ o : ClockObj, o.Valid →
    o.strPy = specHHMMSS o.toClock
  ∧ o.reprPy = "Clock(" ++ o.hours.render ++ ", " ++ o.minutes.render ++
      ", " ++ o.seconds.render ++ ")"
  ∧ ClockObj.init o.hours.toPy o.minutes.toPy o.seconds.toPy = .ok o
  ∧ (o.intFields = true →
      o.reprPy = "Clock(" ++ toString o.toClock.hours ++ ", " ++
        toString o.toClock.minutes ++ ", " ++
        toString o.toClock.seconds ++ ")") := by
  intro o hv
  obtain ⟨h, m, s⟩ := o
  unfold ClockObj.Valid ClockObj.toClock Clock.Valid at hv
  dsimp only at hv
  refine ⟨?_, rfl, ?_, ?_⟩
  · unfold ClockObj.strPy specHHMMSS ClockObj.toClock
    dsimp only
    rw [format02_eq_specTwoDigits h.val (by omega) (by omega),
      format02_eq_specTwoDigits m.val (by omega) (by omega),
      format02_eq_specTwoDigits s.val (by omega) (by omega)]
  · unfold ClockObj.init ClockObj.set_clock
    dsimp only
    rw [toIntObj_toPy, toIntObj_toPy, toIntObj_toPy]
    dsimp only
    rw [if_neg (by omega), if_neg (by omega), if_neg (by omega)]
  · intro hint
    unfold ClockObj.intFields at hint
    dsimp only at hint
    cases h with
    | bool b => simp [IntObj.isGenuineInt] at hint
    | int a =>
      cases m with
      | bool b => simp [IntObj.isGenuineInt] at hint
      | int b =>
        cases s with
        | bool c => simp [IntObj.isGenuineInt] at hint
        | int c => rfl

/-- Witness for amended C6 at the int-field instance `Clock(8, 30, 5)`
(displays `08:30:05`; debug form `Clock(8, 30, 5)`, which reconstructs the
instance). -/
theorem string_representations_amended_witness :
    ClockObj.strPy ⟨.int 8, .int 30, .int 5⟩ =
      specHHMMSS (ClockObj.toClock ⟨.int 8, .int 30, .int 5⟩)
  ∧ ClockObj.init (.int 8) (.int 30) (.int 5) =
      .ok ⟨.int 8, .int 30, .int 5⟩
  ∧ ClockObj.reprPy ⟨.int 8, .int 30, .int 5⟩ =
      "Clock(" ++ toString (8 : Int) ++ ", " ++ toString (30 : Int) ++
        ", " ++ toString (5 : Int) ++ ")" :=
  ⟨(string_representations_amended ⟨.int 8, .int 30, .int 5⟩ (by decide)).1,
   (string_representations_amended ⟨.int 8, .int 30, .int 5⟩
      (by decide)).2.2.1,
   (string_representations_amended ⟨.int 8, .int 30, .int 5⟩
      (by decide)).2.2.2 rfl⟩

/-- C7: two clocks compare equal under `__eq__` iff their field triples
are identical component-wise; comparison with a non-`Clock` value returns
the `NotImplemented` sentinel rather than raising; and equal clocks have
identical hash inputs (the hash is a function of the triple only, so this
holds regardless of construction path). -/
theorem eq_hash_contract :
    (∀ c o : Clock, c.eqPy (.clock o) = .bool true ↔
        (c.hours = o.hours ∧ c.minutes = o.minutes ∧ c.seconds = o.seconds))
  ∧ (∀ (c : Clock) (v : PyVal), v.isClock = false →
        c.eqPy v = .notImplemented)
  ∧ (∀ c o : Clock, c.eqPy (.clock o) = .bool true →
        c.hashKey = o.hashKey) := by
  have hiff : ∀ c o : Clock, c.eqPy (.clock o) = .bool true ↔
      (c.hours = o.hours ∧ c.minutes = o.minutes ∧
        c.seconds = o.seconds) := by
    intro c o
    unfold Clock.eqPy
    constructor
    · intro hEq
      injection hEq with hb
      simp only [Bool.and_eq_true, beq_iff_eq] at hb
      exact ⟨hb.1.1, hb.1.2, hb.2⟩
    · intro ⟨e1, e2, e3⟩
      rw [e1, e2, e3]
      simp
  refine ⟨hiff, ?_, ?_⟩
  · intro c v hv
    cases v <;> first
      | rfl
      | simp [PyVal.isClock] at hv
  · intro c o hEq
    obtain ⟨e1, e2, e3⟩ := (hiff c o).mp hEq
    unfold Clock.hashKey
    rw [e1, e2, e3]

/-- Witness for C7: comparing `Clock(9, 30, 0)` with the integer `5` gives
the sentinel, and two equal clocks have the same hash input. -/
theorem eq_hash_contract_witness :
    Clock.eqPy ⟨9, 30, 0⟩ (.int 5) = .notImplemented
  ∧ Clock.hashKey ⟨9, 30, 0⟩ = Clock.hashKey ⟨9, 30, 0⟩ :=
  ⟨eq_hash_contract.2.1 ⟨9, 30, 0⟩ (.int 5) (by decide),
   eq_hash_contract.2.2 ⟨9, 30, 0⟩ ⟨9, 30, 0⟩ (by decide)⟩

/-- C8: the normalization-and-decomposition step always produces a triple
within the valid bounds, so the range-error branch of the validating path
that `add_seconds` and `from_seconds` route through is unreachable: on any
integer input both operations return successfully. -/
theorem range_error_unreachable :
    (∀ t : Int, (decomp (addDaysWhileNeg t % 86400)).Valid)
  ∧ (∀ (c : Clock) (d : PyVal), c.Valid → d.isInt = true →
        ∃ c', c.add_seconds d = .ok c')
  ∧ (∀ v : PyVal, v.isInt = true → ∃ c', Clock.from_seconds v = .ok c') := by
  refine ⟨?_, ?_, ?_⟩
  · intro t
    have := addDaysWhileNeg_nonneg_emod t
    exact decomp_valid _ (by omega) (by omega)
  · intro c d _ hd
    exact ⟨_, add_seconds_of_isInt c d hd⟩
  · intro v hv
    exact ⟨_, from_seconds_of_isInt v hv⟩

/-- Witness for C8: a large negative delta and a larger-than-a-day total
both succeed. -/
theorem range_error_unreachable_witness :
    (∃ c', Clock.add_seconds ⟨0, 0, 0⟩ (.int (-100000)) = .ok c')
  ∧ (∃ c', Clock.from_seconds (.int 999999) = .ok c') :=
  ⟨range_error_unreachable.2.1 ⟨0, 0, 0⟩ (.int (-100000)) (by decide) rfl,
   range_error_unreachable.2.2 (.int 999999) rfl⟩

/-- C9: the three inputs of the validated construction (the spec's "set"
operation, whose defaults the source declares on `__init__`, which
forwards to `set_clock`) default to 0: a call site that omits arguments
behaves as if 0 had been supplied for the omitted ones, and a call with no
arguments succeeds and yields 00:00:00. -/
theorem set_defaults_zero :
    (∀ oh om os : Option PyVal, Clock.initOpt oh om os =
        Clock.init (oh.getD (.int 0)) (om.getD (.int 0)) (os.getD (.int 0)))
  ∧ Clock.initOpt none none none = .ok ⟨0, 0, 0⟩ := by
  refine ⟨fun _ _ _ => rfl, ?_⟩
  unfold Clock.initOpt Clock.init
  exact set_clock_int_ok _ 0 0 0 (by omega) (by omega) (by omega)

/-- C10: `bool` is a subclass of `int`, so boolean arguments pass the
`isinstance` check: `Clock(True, False, False)` succeeds and yields
01:00:00, and `add_seconds` / `from_seconds` accept a boolean argument
without a type error. -/
theorem bool_passes_int_check :
    Clock.init (.bool true) (.bool false) (.bool false) = .ok ⟨1, 0, 0⟩
  ∧ (∀ (c : Clock) (b : Bool), ∃ c', c.add_seconds (.bool b) = .ok c')
  ∧ (∀ b : Bool, ∃ c', Clock.from_seconds (.bool b) = .ok c') := by
  refine ⟨?_, ?_, ?_⟩
  · unfold Clock.init
    rw [set_clock_ok_of _ (.bool true) (.bool false) (.bool false) rfl rfl
      rfl (by decide) (by decide) (by decide)]
    rfl
  · intro c b
    exact ⟨_, add_seconds_of_isInt c (.bool b) rfl⟩
  · intro b
    exact ⟨_, from_seconds_of_isInt (.bool b) rfl⟩
